import Mathlib

/-!
Verification of the AudioRailRider backend core: a shallow embedding of
the audio feature-extraction pipeline (`audio_analysis_service.py`), the
procedural track generator (`advanced_track_generator.py`) and the
blueprint orchestration / caching layer (`gemini_service.py`).

Numbers that are Python floats are modelled as rationals (ℚ); exact
bit-level float behaviour is out of scope (the spec explicitly waives
bit-for-bit DSP reproduction).  Results of external library calls
(librosa / numpy decompositions, the Gemini API) are passed in as
explicit parameters; the pure plumbing around them (list construction,
indexing, guards, arithmetic, branching) is translated from the source.
-/

namespace AudioRailRider

/-- `np.clip(x, 0, 1)`. -/
def clip01 (q : ℚ) : ℚ := max 0 (min 1 q)

/-- `np.mean` of a list (callers guard against the empty list exactly
where the Python source does). -/
def mean (l : List ℚ) : ℚ := l.sum / l.length

/-- Maximum of a list, `np.max` (callers guard non-emptiness). -/
def listMax : List ℚ → ℚ
  | [] => 0
  | x :: xs => xs.foldl max x

/-- Python `int(x)` on a float: truncation toward zero. -/
def pyTrunc (q : ℚ) : ℤ := if q < 0 then ⌈q⌉ else ⌊q⌋

/-- The literal `1e-10` from `audio_analysis_service.py` line 77. -/
def eps10 : ℚ := 1 / 10000000000

/-! ## Audio feature extraction (`audio_analysis_service._analyze_audio_sync`) -/

/-- One entry of the `frame_analyses` list (source lines 100–115). -/
structure FrameAnalysis where
  timestamp : ℚ
  energy : ℚ
  harmonicEnergy : ℚ
  percussiveEnergy : ℚ
  spectralCentroid : ℚ
  spectralRolloff : ℚ
  spectralFlatness : ℚ
  spectralFlux : ℚ
  bass : ℚ
  mid : ℚ
  high : ℚ
  deriving Repr, DecidableEq

/-- One entry of the `tempo_analyses` list (source lines 157–162). -/
structure TempoPoint where
  timestamp : ℚ
  tempo : ℚ
  deriving Repr, DecidableEq

/-- The dictionary returned by `_analyze_audio_sync` (source lines 177–192). -/
structure AudioFeaturesR where
  duration : ℚ
  bpm : ℚ
  key : String
  energy : ℚ
  harmonicEnergy : ℚ
  percussiveEnergy : ℚ
  spectralCentroid : ℚ
  spectralRolloff : ℚ
  spectralFlatness : ℚ
  spectralFlux : ℚ
  onsetTimes : List ℚ
  tempoCurve : List TempoPoint
  structuralSegments : List ℚ
  frameAnalyses : List FrameAnalysis
  deriving Repr, DecidableEq

/-- A Python exception raised by an external librosa call: the handler at
source lines 193–201 maps `librosa.LibrosaError` to HTTP 400 and every
other exception to HTTP 500. -/
inductive PyExc where
  | librosaError (msg : String)
  | otherError (msg : String)
  deriving Repr, DecidableEq

/-- `fastapi.HTTPException(status_code, detail)`. -/
structure HTTPError where
  status : ℕ
  detail : String
  deriving Repr, DecidableEq

/-- Results of the external librosa/numpy calls inside
`_analyze_audio_sync`, supplied as inputs to the embedding.  `S` is the
magnitude spectrogram stored frame-by-frame: one inner list of bin
magnitudes per STFT frame (the transpose of the numpy `bins × frames`
layout), so `S.length` is `S.shape[1]`. -/
structure LibrosaEnv where
  /-- `librosa.get_duration(y=y, sr=sr)` (line 44). -/
  origDuration : ℚ
  /-- target sample rate; `librosa.load(..., sr=22050)` (lines 42–43). -/
  sr : ℚ := 22050
  /-- outcome of `librosa.beat.beat_track` (line 54): the returned tempo,
  or the exception the call raised. -/
  beat : Except PyExc ℚ
  /-- `np.abs(librosa.stft(y, ...))` (line 65), frames as inner lists. -/
  S : List (List ℚ)
  /-- `librosa.fft_frequencies(sr=sr, n_fft=1024)` (line 66). -/
  freqs : List ℚ
  /-- `librosa.feature.rms(S=S, ...)[0]` (line 87). -/
  rms : List ℚ
  /-- `librosa.feature.spectral_centroid(S=S, ...)[0]` (line 88). -/
  centroid : List ℚ
  /-- `librosa.feature.spectral_rolloff(S=S, ...)[0]` (line 89). -/
  rolloff : List ℚ
  /-- `librosa.feature.spectral_flatness(S=S)[0]` (line 90). -/
  flatness : List ℚ
  /-- `librosa.feature.rms(S=S_harmonic, ...)[0]` (line 96). -/
  harmRms : List ℚ
  /-- `librosa.feature.rms(S=S_percussive, ...)[0]` (line 97). -/
  percRms : List ℚ
  /-- result of the chroma/correlation key-detection block (lines 130–147),
  an external numpy computation returning a key name string. -/
  keyName : String
  /-- `librosa.frames_to_time(onset_frames, ...)` (lines 150–151). -/
  onsetTimes : List ℚ
  /-- `librosa.feature.tempo(..., aggregate=None)` (line 155). -/
  tempoCurve : List ℚ
  /-- `librosa.frames_to_time(segment_boundaries, ...)` (lines 165–167). -/
  segmentTimes : List ℚ

/-- `np.abs(np.diff(c, prepend=prev))` unrolled: first output is
`|c₀ - prev|` (zero when `prev = c₀`), then successive absolute deltas. -/
def fluxList : ℚ → List ℚ → List ℚ
  | _, [] => []
  | prev, x :: xs => |x - prev| :: fluxList x xs

/-- `np.where(freqs <= 250)[0]` (line 71). -/
def bassBins (freqs : List ℚ) : List ℕ :=
  (List.range freqs.length).filter fun i => decide (freqs.getD i 0 ≤ 250)

/-- `np.where((freqs > 250) & (freqs <= 4000))[0]` (line 72). -/
def midBins (freqs : List ℚ) : List ℕ :=
  (List.range freqs.length).filter fun i =>
    decide (250 < freqs.getD i 0 ∧ freqs.getD i 0 ≤ 4000)

/-- `np.where(freqs > 4000)[0]` (line 73). -/
def highBins (freqs : List ℚ) : List ℕ :=
  (List.range freqs.length).filter fun i => decide (4000 < freqs.getD i 0)

/-- `S[bins, :].mean(axis=0) if bins.size > 0 else np.zeros(S.shape[1])`
(lines 78–80): one value per frame. -/
def bandEnergyPerFrame (S : List (List ℚ)) (bins : List ℕ) : List ℚ :=
  if bins.isEmpty then S.map fun _ => 0
  else S.map fun col => mean (bins.map fun i => col.getD i 0)

/-- `max(np.max(S), 1e-10) if S.size > 0 else 1e-10` (line 77). -/
def maxMagnitude (S : List (List ℚ)) : ℚ :=
  let flat := S.foldr (· ++ ·) []
  if flat.isEmpty then eps10 else max (listMax flat) eps10

/-- The `frame_analyses` list built at source lines 100–115: one record
per spectrogram frame, each feature read with the
`arr[i] if i < len(arr) else 0.0` guard, which is exactly `getD i 0`.
`c0` is `spectral_centroid_frames[0]`, the prepend value of the
spectral-flux difference at line 91. -/
def analysisFrames (env : LibrosaEnv) (c0 : ℚ) : List FrameAnalysis :=
  let spectralFluxFrames := fluxList c0 env.centroid
  -- line 86: frames_to_time(arange(n), sr, hop_length=512) = 512·i / sr
  let times := (List.range env.S.length).map fun i => (512 * (i : ℚ)) / env.sr
  let m := maxMagnitude env.S
  -- lines 78–84: per-frame band energies normalized by maxS, clipped
  let bass := (bandEnergyPerFrame env.S (bassBins env.freqs)).map
    fun v => clip01 (v / m)
  let mid := (bandEnergyPerFrame env.S (midBins env.freqs)).map
    fun v => clip01 (v / m)
  let high := (bandEnergyPerFrame env.S (highBins env.freqs)).map
    fun v => clip01 (v / m)
  (List.range env.S.length).map fun i =>
    { timestamp := times.getD i 0
      energy := env.rms.getD i 0
      harmonicEnergy := env.harmRms.getD i 0
      percussiveEnergy := env.percRms.getD i 0
      spectralCentroid := env.centroid.getD i 0
      spectralRolloff := env.rolloff.getD i 0
      spectralFlatness := env.flatness.getD i 0
      spectralFlux := spectralFluxFrames.getD i 0
      bass := bass.getD i 0
      mid := mid.getD i 0
      high := high.getD i 0 : FrameAnalysis }

/-- The success-path result of `_analyze_audio_sync` (source lines
44–192), given the tempo returned by beat tracking and the head `c0` of
the non-empty centroid array. -/
def analysisResult (env : LibrosaEnv) (tempo c0 : ℚ) : AudioFeaturesR :=
  -- lines 44–51: clamp the reported duration to MAX_ANALYZE_SECONDS = 120
  let duration := if env.origDuration > 120 then (120 : ℚ) else env.origDuration
  -- line 55: `bpm = float(tempo) if tempo else 120.0`
  let bpm := if tempo ≠ 0 then tempo else 120
  let frames := analysisFrames env c0
  let times := (List.range env.S.length).map fun i => (512 * (i : ℚ)) / env.sr
  -- lines 117–124: whole-track aggregates, guarded on empty frames
  let avgEnergy := if frames.isEmpty then 0 else mean (frames.map (·.energy))
  { duration := duration
    bpm := bpm
    key := env.keyName
    energy := clip01 (avgEnergy * 5)
    harmonicEnergy := if frames.isEmpty then 0 else mean (frames.map (·.harmonicEnergy))
    percussiveEnergy := if frames.isEmpty then 0 else mean (frames.map (·.percussiveEnergy))
    spectralCentroid := if frames.isEmpty then 0 else mean (frames.map (·.spectralCentroid))
    spectralRolloff := if frames.isEmpty then 0 else mean (frames.map (·.spectralRolloff))
    spectralFlatness := if frames.isEmpty then 0 else mean (frames.map (·.spectralFlatness))
    spectralFlux := if frames.isEmpty then 0 else mean (frames.map (·.spectralFlux))
    onsetTimes := env.onsetTimes
    -- lines 157–162: `times[i] if i < len(times) else 0.0`
    tempoCurve := env.tempoCurve.enum.map fun p =>
      { timestamp := times.getD p.1 0, tempo := p.2 : TempoPoint }
    structuralSegments := env.segmentTimes
    frameAnalyses := frames }

/-- Shallow embedding of `_analyze_audio_sync` (source lines 39–201),
starting after the decode step; external librosa results are supplied in
`env`.  The two raise-points modelled are the beat-track call (line 54)
and the `spectral_centroid_frames[0]` indexing inside the
`np.diff(..., prepend=...)` at line 91, which raises `IndexError` on an
empty centroid array; both surface through the handlers at lines
193–201. -/
def analyzeAudioSync (env : LibrosaEnv) : Except HTTPError AudioFeaturesR :=
  match env.beat with
  | .error (.librosaError m) =>
      .error ⟨400, "Audio processing failed: " ++ m⟩
  | .error (.otherError _) =>
      .error ⟨500, "An unexpected error occurred during audio analysis."⟩
  | .ok tempo =>
    match env.centroid with
    | [] =>
      -- line 91: `spectral_centroid_frames[0]` raises IndexError when the
      -- spectrogram has zero frames; caught by the generic handler → 500
      .error ⟨500, "An unexpected error occurred during audio analysis."⟩
    | c0 :: _ => .ok (analysisResult env tempo c0)

/-! ## Song-structure analysis and component synthesis
(`advanced_track_generator.AdvancedTrackGenerator`) -/

/-- One section dictionary produced by `_analyze_song_structure`
(source lines 80–87). -/
structure SectionR where
  type : String
  startTime : ℚ
  endTime : ℚ
  duration : ℚ
  energy : ℚ
  position : ℚ
  deriving Repr, DecidableEq

/-- `_classify_section_type` (source lines 90–105). -/
def classifySectionType (sectionIndex totalSections : ℕ) (energy : ℚ) : String :=
  let position : ℚ := (sectionIndex : ℚ) / (totalSections : ℚ)
  if position < 0.15 then "intro"
  else if position < 0.3 then "buildup"
  else if position < 0.7 then (if energy > 0.7 then "climax" else "development")
  else if position < 0.9 then "finale"
  else "outro"

/-- `_analyze_song_structure` (source lines 60–88).  Index arithmetic is
over ℤ as in Python; the slice `energy_timeline[start_idx:end_idx]` is
taken for the non-negative indices that arise whenever
`duration > 0` and `bpm > 0`. -/
def analyzeSongStructure (energyTimeline : List ℚ) (bpm duration : ℚ) :
    List SectionR :=
  let typicalSectionLength := 16 * (60 / bpm)
  let numSectionsZ : ℤ := max 4 (pyTrunc (duration / typicalSectionLength))
  let n : ℕ := numSectionsZ.toNat
  let sectionLength := duration / (n : ℚ)
  (List.range n).map fun (i : ℕ) =>
    let startTime := (i : ℚ) * sectionLength
    let endTime := ((i : ℚ) + 1) * sectionLength
    let startIdx : ℤ := pyTrunc ((startTime / duration) * (energyTimeline.length : ℚ))
    let endIdx : ℤ :=
      min (pyTrunc ((endTime / duration) * (energyTimeline.length : ℚ)))
        (energyTimeline.length : ℤ)
    let sectionEnergy :=
      if startIdx < endIdx then
        mean ((energyTimeline.drop startIdx.toNat).take (endIdx - startIdx).toNat)
      else 0.5
    { type := classifySectionType i n sectionEnergy
      startTime := startTime
      endTime := endTime
      duration := sectionLength
      energy := sectionEnergy
      position := (i : ℚ) / (n : ℚ) }

/-- Python `pat in s` substring test. -/
def strContains (s pat : String) : Bool := decide (pat.toList <:+: s.toList)

/-- `AudioReactiveProperties` (enhanced_models.py). -/
structure AudioProps where
  beat_sync : Bool
  energy_reactive : Bool
  bass_responsive : Bool
  amplitude_multiplier : ℚ
  deriving Repr, DecidableEq

/-- `VisualEffects` (enhanced_models.py). -/
structure VisualFx where
  lighting_type : String
  fog_density : ℚ
  speed_lines : Bool
  camera_shake : Bool
  particle_system : Option String
  trail_effect : Bool
  deriving Repr, DecidableEq

/-- The property dictionary built by `_generate_component_properties`:
physical fields are `Option` because each branch of the `if/elif` chain
populates only its own keys. -/
structure ComponentProps where
  height : Option ℚ := none
  g_force : Option ℚ := none
  speed_modifier : Option ℚ := none
  radius : Option ℚ := none
  banking : Option ℚ := none
  twist_angle : Option ℚ := none
  inversions : Option ℤ := none
  audio_properties : AudioProps
  effects : VisualFx
  energy_threshold : ℚ
  deriving Repr, DecidableEq

/-- The physical-property branch of `_generate_component_properties`
(source lines 229–250), keyed on substring tests of the component type
value. -/
def physicalProps (ctv : String) (energy : ℚ) : ComponentProps → ComponentProps :=
  fun base =>
    if strContains ctv "drop" then
      { base with
        height := some (-(20 + energy * 180))
        g_force := some (2 + energy * 3)
        speed_modifier := some (1.2 + energy * 0.8) }
    else if strContains ctv "loop" then
      { base with
        height := some (15 + energy * 35)
        radius := some (8 + energy * 22)
        g_force := some (3 + energy * 2.5)
        inversions := some 1 }
    else if strContains ctv "climb" || strContains ctv "hill" then
      { base with
        height := some (10 + energy * 90)
        g_force := some (0.8 + energy * 0.7)
        speed_modifier := some (0.6 + energy * 0.4) }
    else if strContains ctv "turn" || strContains ctv "curve" then
      { base with
        banking := some (energy * 60)
        radius := some (25 + (1 - energy) * 75)
        g_force := some (1.5 + energy * 1) }
    else if strContains ctv "roll" then
      { base with
        twist_angle := some (360 * (1 + (pyTrunc (energy * 2) : ℚ)))
        g_force := some (2 + energy * 2)
        inversions := some (1 + pyTrunc (energy * 2)) }
    else base

/-- `_generate_component_properties` (source lines 221–271).  `rand`
stands for the `random.random()` draw at line 253. -/
def generateComponentProperties (ctv : String) (energy : ℚ) (rand : ℚ) :
    ComponentProps :=
  let phys := physicalProps ctv energy
    { audio_properties := ⟨false, false, false, 0⟩
      effects := ⟨"static", 0, false, false, none, false⟩
      energy_threshold := 0 }
  { phys with
    audio_properties :=
      { beat_sync := decide (energy > 0.6) && decide (rand < 0.4)
        energy_reactive := decide (energy > 0.4)
        bass_responsive := strContains ctv "drop" || strContains ctv "launch"
        amplitude_multiplier := 0.8 + energy * 0.4 }
    effects :=
      { lighting_type := if energy > 0.6 then "pulsing" else "static"
        fog_density := energy * 0.4
        speed_lines := decide (phys.speed_modifier.getD 1 > 1.3)
        camera_shake := decide (energy > 0.8)
        particle_system := if energy > 0.7 then some "sparks" else none
        trail_effect := decide (energy > 0.5) }
    energy_threshold := max 0.1 (energy - 0.2) }

/-! ## Blueprint orchestration (`gemini_service.GeminiService`) -/

/-- The features dictionary as consumed by `_procedural_fallback`, which
reads `duration`, `bpm` and `energy` with `dict.get` defaults (source
lines 388–390); absent keys are `none`. -/
structure FeaturesDict where
  duration : Option ℚ := none
  bpm : Option ℚ := none
  energy : Option ℚ := none
  deriving Repr, DecidableEq

/-- One track segment dictionary built by `_procedural_fallback`
(source lines 404–448); each branch populates its own keys. -/
structure SegmentR where
  component : String
  intensity : ℚ
  length : Option ℚ := none
  radius : Option ℚ := none
  angle : Option ℚ := none
  rotations : Option ℚ := none
  direction : Option String := none
  deriving Repr, DecidableEq

/-- The blueprint dictionary returned by `_procedural_fallback` / stored
by `generate_blueprint`.  `generationOptions` holds the serialized
options attached at source line 349. -/
structure BlueprintR where
  rideName : String
  moodDescription : String
  palette : List String
  track : List SegmentR
  generationOptions : Option (List ℕ) := none
  deriving Repr, DecidableEq

/-- `GeminiService._procedural_fallback` (source lines 381–465).
`sinExt i n` stands for the float `math.sin(i * math.pi / n)` at source
line 401 (an external transcendental evaluation).  The numeric `.2f`
formatting inside `moodDescription` is abbreviated to a fixed string;
no claim concerns that text. -/
def proceduralFallback (sinExt : ℕ → ℕ → ℚ) (features : FeaturesDict) :
    BlueprintR :=
  let duration := features.duration.getD 120
  let energy := features.energy.getD 0.5
  -- line 393: num_segments = max(12, min(30, int(duration / 8)))
  let numSegments : ℕ := (max 12 (min 30 (pyTrunc (duration / 8)))).toNat
  let track := (List.range numSegments).map fun (i : ℕ) =>
    let intensity := 30 + energy * 40 + 20 * sinExt i numSegments
    if intensity > 70 then
      if i % 5 == 0 then
        { component := "loop", intensity := intensity
          radius := some (50 + intensity * 0.5) : SegmentR }
      else if i % 3 == 0 then
        { component := "barrelRoll", intensity := intensity
          rotations := some 1, length := some 80 : SegmentR }
      else
        { component := "drop", intensity := intensity
          length := some (60 + intensity * 0.8)
          angle := some (-30 - intensity * 0.3) : SegmentR }
    else if intensity > 45 then
      if i % 2 == 0 then
        { component := "turn", intensity := intensity
          length := some 70
          direction := some (if i % 4 == 0 then "left" else "right")
          angle := some (45 + intensity * 0.5)
          radius := some 100 : SegmentR }
      else
        { component := "climb", intensity := intensity
          length := some 60, angle := some (20 + intensity * 0.2) : SegmentR }
    else
      { component := "climb", intensity := intensity
        length := some 50, angle := some 10 : SegmentR }
  -- lines 453–458: palette chosen purely by energy thresholds
  let palette :=
    if energy > 0.7 then ["#FF6B6B", "#FFA500", "#FFD700"]
    else if energy > 0.4 then ["#4ECDC4", "#45B7D1", "#96CEB4"]
    else ["#9B59B6", "#8E44AD", "#E8DAEF"]
  { rideName := "Procedural Ride"
    moodDescription := "A procedurally generated ride matching the audio energy level."
    palette := palette
    track := track }

/-- `GeminiService._generate_cache_key` (source lines 262–270): a SHA-256
digest over the audio bytes followed, when `options` is truthy, by the
canonically serialized options.  The digest is a fixed function of this
byte stream, so the key is modelled by the stream itself; `optionsSer`
is `json.dumps(options, sort_keys=True).encode()` when `options` is
truthy and `none` otherwise.  Note the declared content type is not an
argument, exactly as in the source. -/
def generateCacheKey (audio : List ℕ) (optionsSer : Option (List ℕ)) : List ℕ :=
  audio ++ (match optionsSer with | some s => s | none => [])

/-- A result stored in / returned from the orchestrator. -/
structure GenResult where
  blueprint : BlueprintR
  features : FeaturesDict
  deriving Repr, DecidableEq

/-- One entry of the `TTLCache` `blueprint_cache`. -/
structure CacheEntry where
  key : List ℕ
  insertedAt : ℕ
  value : GenResult
  deriving Repr, DecidableEq

/-- `TTLCache(maxsize=100, ttl=3600)` (source line 76): the TTL. -/
def cacheTTL : ℕ := 3600

/-- State of a `GeminiService` instance, plus call counters for the two
downstream stages (the "call-count spy" of the spec). -/
structure ServiceState where
  cache : List CacheEntry
  extractCalls : ℕ := 0
  generateCalls : ℕ := 0
  deriving Repr, DecidableEq

/-- `cache_key in self.blueprint_cache` / `self.blueprint_cache[cache_key]`
on a `TTLCache`: an entry answers while `now < insertedAt + ttl`. -/
def cacheLookup (cache : List CacheEntry) (key : List ℕ) (now : ℕ) :
    Option GenResult :=
  match cache.find? (fun e => (e.key == key) && decide (now < e.insertedAt + cacheTTL)) with
  | some e => some e.value
  | none => none

/-- Per-request outcomes of the two external stages: `analyze` is the
outcome of `analyze_audio` (line 303) and `candidate` the outcome of the
whole Gemini candidate chain — prompt build, upload, API call, JSON
parse (lines 305–345); any exception there is a `.error`. -/
structure GenEnv where
  analyze : Except String FeaturesDict
  candidate : Except String BlueprintR
  sinExt : ℕ → ℕ → ℚ
  now : ℕ

/-- `GeminiService.generate_blueprint` (source lines 272–379): cache
check, mandatory feature extraction, candidate generation, and the
procedural fallback absorbing every candidate-stage failure.  On
extraction failure `audio_features` is still the empty dict, so the
generic handler re-raises an HTTP 500 (lines 365–370); on candidate
failure the extracted features are truthy and control falls through to
`_procedural_fallback` (lines 372–376).  Successful candidate results
are stored in the cache (line 354); fallback results are not. -/
def generateBlueprint (st : ServiceState) (env : GenEnv) (audio : List ℕ)
    (contentType : String) (optionsSer : Option (List ℕ)) :
    Except HTTPError GenResult × ServiceState :=
  let _ := contentType  -- received but never used for the cache key
  let key := generateCacheKey audio optionsSer
  match cacheLookup st.cache key env.now with
  | some r => (.ok r, st)
  | none =>
    match env.analyze with
    | .error e =>
        (.error ⟨500, "Failed to generate blueprint due to an initial error: " ++ e⟩,
         { st with extractCalls := st.extractCalls + 1 })
    | .ok features =>
      let st2 := { st with
        extractCalls := st.extractCalls + 1
        generateCalls := st.generateCalls + 1 }
      match env.candidate with
      | .ok bp =>
          let result : GenResult :=
            ⟨{ bp with generationOptions := optionsSer }, features⟩
          (.ok result, { st2 with cache := ⟨key, env.now, result⟩ :: st2.cache })
      | .error _ =>
          (.ok ⟨proceduralFallback env.sinExt features, features⟩, st2)

/-! ## Concrete sample inputs used by witnesses and counterexamples -/

/-- A small concrete analysis result. -/
def sampleFeatures : FeaturesDict :=
  { duration := some 60, bpm := some 120, energy := some (1/2) }

/-- A small concrete candidate blueprint. -/
def sampleBlueprint : BlueprintR :=
  { rideName := "Test Ride"
    moodDescription := "A test ride."
    palette := ["#111111", "#222222", "#333333"]
    track := [{ component := "climb", intensity := 50, length := some 100 }] }

/-- Degenerate stand-in for `math.sin`. -/
def zeroSin : ℕ → ℕ → ℚ := fun _ _ => 0

/-- Request environment whose candidate generation succeeds. -/
def envOk : GenEnv :=
  { analyze := .ok sampleFeatures, candidate := .ok sampleBlueprint
    sinExt := zeroSin, now := 0 }

/-- Request environment whose candidate generation fails. -/
def envCandidateFails : GenEnv :=
  { analyze := .ok sampleFeatures, candidate := .error "API error"
    sinExt := zeroSin, now := 0 }

/-- Request environment whose feature extraction fails; candidate
generation would also fail if it were ever reached. -/
def envAnalyzeFails : GenEnv :=
  { analyze := .error "decode failure", candidate := .error "unreachable"
    sinExt := zeroSin, now := 10 }

/-- A fresh service instance: empty cache, zero call counters. -/
def emptyState : ServiceState := { cache := [] }

/-- Concrete librosa environment with two frames and two bins: a valid,
non-degenerate extraction input. -/
def envTwoFrames : LibrosaEnv :=
  { origDuration := 30
    beat := .ok 120
    S := [[1, 0], [0, 2]]
    freqs := [100, 5000]
    rms := [1/10, 1/5]
    centroid := [1000, 1200]
    rolloff := [2000, 2400]
    flatness := [1/2, 1/2]
    harmRms := [1/20, 1/10]
    percRms := [1/20, 1/10]
    keyName := "C Major"
    onsetTimes := []
    tempoCurve := [120]
    segmentTimes := [] }

/-- Concrete librosa environment whose spectrogram has zero frames (so
the centroid array is empty too). -/
def envZeroFrames : LibrosaEnv :=
  { origDuration := 1
    beat := .ok 120
    S := []
    freqs := [100, 5000]
    rms := []
    centroid := []
    rolloff := []
    flatness := []
    harmRms := []
    percRms := []
    keyName := "C Major"
    onsetTimes := []
    tempoCurve := []
    segmentTimes := [] }

/-- Concrete librosa environment where the beat-tracking call raises. -/
def envBeatRaises : LibrosaEnv :=
  { envTwoFrames with beat := .error (.otherError "beat tracking failed") }

/-- Concrete librosa environment where beat tracking returns tempo 0. -/
def envZeroTempo : LibrosaEnv :=
  { envTwoFrames with beat := .ok 0 }

/-- Concrete librosa environment for silent audio: one all-zero frame. -/
def envSilent : LibrosaEnv :=
  { origDuration := 2
    beat := .ok 0
    S := [[0, 0]]
    freqs := [100, 5000]
    rms := [0]
    centroid := [0]
    rolloff := [0]
    flatness := [0]
    harmRms := [0]
    percRms := [0]
    keyName := "C Major"
    onsetTimes := []
    tempoCurve := []
    segmentTimes := [] }

/-! ## Helper lemmas -/

lemma clip01_nonneg (q : ℚ) : 0 ≤ clip01 q := le_max_left _ _

lemma clip01_le_one (q : ℚ) : clip01 q ≤ 1 := by
  unfold clip01
  rcases le_total 0 (min 1 q) with h | h
  · rw [max_eq_right h]; exact min_le_left _ _
  · rw [max_eq_left h]; exact zero_le_one

lemma pyTrunc_of_nonneg {q : ℚ} (h : 0 ≤ q) : pyTrunc q = ⌊q⌋ := by
  unfold pyTrunc
  rw [if_neg (not_lt.mpr h)]

lemma clamp_pyTrunc_eq_clamp_floor (lo hi : ℤ) (hlo : 0 < lo) (q : ℚ) :
    max lo (min hi (pyTrunc q)) = max lo (min hi ⌊q⌋) := by
  rcases lt_or_le q 0 with h | h
  · have hceil : ⌈q⌉ ≤ 0 := Int.ceil_le.mpr (by exact_mod_cast h.le)
    have hfloor : ⌊q⌋ ≤ 0 := le_trans (Int.floor_le_ceil q) hceil
    have htr : pyTrunc q = ⌈q⌉ := by unfold pyTrunc; rw [if_pos h]
    rw [htr]
    omega
  · rw [pyTrunc_of_nonneg h]

lemma map_getD_range {α : Type} (l : List α) (d : α) :
    (List.range l.length).map (fun i => l.getD i d) = l := by
  induction l with
  | nil => simp
  | cons x xs ih =>
    rw [List.length_cons, List.range_succ_eq_map, List.map_cons, List.map_map]
    simp only [Function.comp_def, List.getD_cons_zero, List.getD_cons_succ]
    rw [ih]

lemma getD_eq_zero {l : List ℚ} (h : ∀ x ∈ l, x = 0) (i : ℕ) :
    l.getD i 0 = 0 := by
  induction l generalizing i with
  | nil => simp [List.getD]
  | cons x xs ih =>
    cases i with
    | zero => simpa using h x (by simp)
    | succ n =>
      simp only [List.getD_cons_succ]
      exact ih (fun y hy => h y (by simp [hy])) n

lemma mean_eq_zero {l : List ℚ} (h : ∀ x ∈ l, x = 0) : mean l = 0 := by
  unfold mean
  rw [List.sum_eq_zero h, zero_div]

/-- Segment count of the procedural fallback (source line 393 via the
`range` map at lines 399–450). -/
lemma proceduralFallback_track_length (sinExt : ℕ → ℕ → ℚ)
    (features : FeaturesDict) :
    (proceduralFallback sinExt features).track.length =
      (max 12 (min 30 (pyTrunc (features.duration.getD 120 / 8)))).toNat := by
  simp [proceduralFallback]

lemma proceduralFallback_track_length_ge (sinExt : ℕ → ℕ → ℚ)
    (features : FeaturesDict) :
    12 ≤ (proceduralFallback sinExt features).track.length := by
  rw [proceduralFallback_track_length]
  omega

lemma proceduralFallback_track_ne_nil (sinExt : ℕ → ℕ → ℚ)
    (features : FeaturesDict) :
    (proceduralFallback sinExt features).track ≠ [] := by
  have h := proceduralFallback_track_length_ge sinExt features
  exact List.ne_nil_of_length_pos (by omega)

/-! ## Claims -/

/-- **C10.** For every features dictionary — including one missing the
`duration`, `bpm` or `energy` keys, which default to 120, 120 and 0.5 —
the procedural fallback returns (totally, without raising) a blueprint
whose track has exactly `max(12, min(30, ⌊duration/8⌋))` segments, hence
between 12 and 30 inclusive, and whose palette is exactly 3 color
strings selected solely by the energy thresholds 0.7 and 0.4. -/
theorem c10_procedural_fallback_shape (sinExt : ℕ → ℕ → ℚ)
    (features : FeaturesDict) :
    (((proceduralFallback sinExt features).track.length : ℤ) =
        max 12 (min 30 ⌊features.duration.getD 120 / 8⌋)) ∧
    12 ≤ (proceduralFallback sinExt features).track.length ∧
    (proceduralFallback sinExt features).track.length ≤ 30 ∧
    (proceduralFallback sinExt features).track ≠ [] ∧
    (proceduralFallback sinExt features).palette.length = 3 ∧
    (proceduralFallback sinExt features).palette =
      (if features.energy.getD 0.5 > 0.7 then ["#FF6B6B", "#FFA500", "#FFD700"]
       else if features.energy.getD 0.5 > 0.4 then ["#4ECDC4", "#45B7D1", "#96CEB4"]
       else ["#9B59B6", "#8E44AD", "#E8DAEF"]) := by
  have hlen := proceduralFallback_track_length sinExt features
  have hfloor := clamp_pyTrunc_eq_clamp_floor 12 30 (by norm_num)
    (features.duration.getD 120 / 8)
  refine ⟨?_, ?_, ?_, proceduralFallback_track_ne_nil sinExt features, ?_, ?_⟩
  · rw [hlen, ← hfloor]; omega
  · exact proceduralFallback_track_length_ge sinExt features
  · rw [hlen]; omega
  · simp only [proceduralFallback]
    split
    · simp
    · split <;> simp
  · simp only [proceduralFallback]

/-- **C7.** For every section energy in [0,1], the synthesized component
properties satisfy the documented interpolation bounds: drops have
height ∈ [−200, −20] and g_force ∈ [2, 5]; loops have height ∈ [15, 50],
radius ∈ [8, 30] and exactly one inversion; climbs/hills have
height ∈ [10, 100]; turns/curves have banking ∈ [0, 60] and radius
`25 + (1−energy)·75 ∈ [25, 100]` decreasing in energy; rolls have
twist_angle ∈ {360, 720, 1080} and inversions = 1 + ⌊energy·2⌋; and every
synthesized component's energy_threshold = max(0.1, energy − 0.2).
The branch conditions mirror the `if/elif` substring chain of
`_generate_component_properties`. -/
theorem c7_component_property_bounds (ctv : String) (energy rand : ℚ)
    (h0 : 0 ≤ energy) (h1 : energy ≤ 1) :
    (strContains ctv "drop" = true →
      (generateComponentProperties ctv energy rand).height =
          some (-(20 + energy * 180)) ∧
      -200 ≤ -(20 + energy * 180) ∧ -(20 + energy * 180) ≤ -20 ∧
      (generateComponentProperties ctv energy rand).g_force =
          some (2 + energy * 3) ∧
      2 ≤ 2 + energy * 3 ∧ 2 + energy * 3 ≤ 5) ∧
    (strContains ctv "drop" = false → strContains ctv "loop" = true →
      (generateComponentProperties ctv energy rand).height =
          some (15 + energy * 35) ∧
      15 ≤ 15 + energy * 35 ∧ 15 + energy * 35 ≤ 50 ∧
      (generateComponentProperties ctv energy rand).radius =
          some (8 + energy * 22) ∧
      8 ≤ 8 + energy * 22 ∧ 8 + energy * 22 ≤ 30 ∧
      (generateComponentProperties ctv energy rand).inversions = some 1) ∧
    (strContains ctv "drop" = false → strContains ctv "loop" = false →
     (strContains ctv "climb" = true ∨ strContains ctv "hill" = true) →
      (generateComponentProperties ctv energy rand).height =
          some (10 + energy * 90) ∧
      10 ≤ 10 + energy * 90 ∧ 10 + energy * 90 ≤ 100) ∧
    (strContains ctv "drop" = false → strContains ctv "loop" = false →
     strContains ctv "climb" = false → strContains ctv "hill" = false →
     (strContains ctv "turn" = true ∨ strContains ctv "curve" = true) →
      (generateComponentProperties ctv energy rand).banking =
          some (energy * 60) ∧
      0 ≤ energy * 60 ∧ energy * 60 ≤ 60 ∧
      (generateComponentProperties ctv energy rand).radius =
          some (25 + (1 - energy) * 75) ∧
      25 ≤ 25 + (1 - energy) * 75 ∧ 25 + (1 - energy) * 75 ≤ 100 ∧
      (∀ e1 e2 : ℚ, e1 ≤ e2 →
        ∀ r1 r2 : ℚ,
          (generateComponentProperties ctv e1 rand).radius = some r1 →
          (generateComponentProperties ctv e2 rand).radius = some r2 →
          r2 ≤ r1)) ∧
    (strContains ctv "drop" = false → strContains ctv "loop" = false →
     strContains ctv "climb" = false → strContains ctv "hill" = false →
     strContains ctv "turn" = false → strContains ctv "curve" = false →
     strContains ctv "roll" = true →
      ((generateComponentProperties ctv energy rand).twist_angle = some 360 ∨
       (generateComponentProperties ctv energy rand).twist_angle = some 720 ∨
       (generateComponentProperties ctv energy rand).twist_angle = some 1080) ∧
      (generateComponentProperties ctv energy rand).inversions =
        some (1 + ⌊energy * 2⌋)) ∧
    (generateComponentProperties ctv energy rand).energy_threshold =
      max 0.1 (energy - 0.2) := by
  have h2e : (0 : ℚ) ≤ energy * 2 := by linarith
  have htr : pyTrunc (energy * 2) = ⌊energy * 2⌋ := pyTrunc_of_nonneg h2e
  refine ⟨?_, ?_, ?_, ?_, ?_, ?_⟩
  · intro hdrop
    simp only [generateComponentProperties, physicalProps, hdrop, if_true]
    refine ⟨by trivial, by linarith, by linarith, by trivial, by linarith, by linarith⟩
  · intro hdrop hloop
    simp only [generateComponentProperties, physicalProps, hdrop, hloop,
      Bool.false_eq_true, if_false, if_true]
    refine ⟨by trivial, by linarith, by linarith, by trivial, by linarith, by linarith, by trivial⟩
  · intro hdrop hloop hch
    have hcb : (strContains ctv "climb" || strContains ctv "hill") = true := by
      rcases hch with h | h <;> simp [h]
    simp only [generateComponentProperties, physicalProps, hdrop, hloop, hcb,
      Bool.false_eq_true, if_false, if_true]
    refine ⟨by trivial, by linarith, by linarith⟩
  · intro hdrop hloop hclimb hhill htc
    have hcb : (strContains ctv "climb" || strContains ctv "hill") = false := by
      simp [hclimb, hhill]
    have htb : (strContains ctv "turn" || strContains ctv "curve") = true := by
      rcases htc with h | h <;> simp [h]
    simp only [generateComponentProperties, physicalProps, hdrop, hloop, hcb,
      htb, Bool.false_eq_true, if_false, if_true]
    refine ⟨by trivial, by positivity, by linarith, by trivial, by linarith, by linarith, ?_⟩
    intro e1 e2 hle r1 r2 hr1 hr2
    simp only [generateComponentProperties, physicalProps, hdrop, hloop, hcb,
      htb, Bool.false_eq_true, if_false, if_true, Option.some.injEq] at hr1 hr2
    rw [← hr1, ← hr2]
    linarith
  · intro hdrop hloop hclimb hhill hturn hcurve hroll
    have hcb : (strContains ctv "climb" || strContains ctv "hill") = false := by
      simp [hclimb, hhill]
    have htb : (strContains ctv "turn" || strContains ctv "curve") = false := by
      simp [hturn, hcurve]
    simp only [generateComponentProperties, physicalProps, hdrop, hloop, hcb,
      htb, hroll, Bool.false_eq_true, if_false, if_true]
    have hfl : 0 ≤ ⌊energy * 2⌋ := Int.floor_nonneg.mpr h2e
    have hfu : ⌊energy * 2⌋ ≤ 2 := by
      have h22 : energy * 2 ≤ (2 : ℚ) := by linarith
      calc ⌊energy * 2⌋ ≤ ⌊(2 : ℚ)⌋ := Int.floor_mono h22
        _ = 2 := by norm_num
    constructor
    · rw [htr]
      have : ⌊energy * 2⌋ = 0 ∨ ⌊energy * 2⌋ = 1 ∨ ⌊energy * 2⌋ = 2 := by omega
      rcases this with h | h | h <;> rw [h] <;> norm_num
    · rw [htr]
  · simp only [generateComponentProperties]

/-- Witness for C7 at the concrete component type `"vertical_drop"`,
energy 1/2, random draw 0. -/
theorem c7_witness :
    ((0 : ℚ) ≤ 1/2 ∧ (1/2 : ℚ) ≤ 1) ∧
    (strContains "vertical_drop" "drop" = true →
      (generateComponentProperties "vertical_drop" (1/2) 0).height =
          some (-(20 + (1/2 : ℚ) * 180)) ∧
      -200 ≤ -(20 + (1/2 : ℚ) * 180) ∧ -(20 + (1/2 : ℚ) * 180) ≤ -20 ∧
      (generateComponentProperties "vertical_drop" (1/2) 0).g_force =
          some (2 + (1/2 : ℚ) * 3) ∧
      2 ≤ 2 + (1/2 : ℚ) * 3 ∧ 2 + (1/2 : ℚ) * 3 ≤ 5) ∧
    (generateComponentProperties "vertical_drop" (1/2) 0).energy_threshold =
      max 0.1 ((1/2 : ℚ) - 0.2) := by
  have h := c7_component_property_bounds "vertical_drop" (1/2) 0
    (by norm_num) (by norm_num)
  exact ⟨⟨by norm_num, by norm_num⟩, h.1, h.2.2.2.2.2⟩

/-- The section built for index `i` by `_analyze_song_structure`. -/
lemma analyzeSongStructure_get (tl : List ℚ) (bpm duration : ℚ)
    (i : ℕ) (h : i < (analyzeSongStructure tl bpm duration).length) :
    ((analyzeSongStructure tl bpm duration).get ⟨i, h⟩).startTime =
      (i : ℚ) * (duration / ((analyzeSongStructure tl bpm duration).length : ℚ)) ∧
    ((analyzeSongStructure tl bpm duration).get ⟨i, h⟩).endTime =
      ((i : ℚ) + 1) * (duration / ((analyzeSongStructure tl bpm duration).length : ℚ)) := by
  have hlen : (analyzeSongStructure tl bpm duration).length =
      (max 4 (pyTrunc (duration / (16 * (60 / bpm))))).toNat := by
    simp [analyzeSongStructure]
  have hi : i < (max 4 (pyTrunc (duration / (16 * (60 / bpm))))).toNat := by
    omega
  constructor <;>
    simp [analyzeSongStructure, List.get_map, hlen]

/-- **C6.** For every `bpm > 0` and `duration > 0`, the section
classifier returns exactly `max(4, ⌊duration / (16·60/bpm)⌋)` sections
whose `(start_time, end_time)` intervals are in time order, contiguous,
each of equal width `duration / num_sections`, and exactly tile
`[0, duration)`: the first starts at 0, each section ends where the next
begins, and the last ends at `duration`. -/
theorem c6_sections_tile_duration (tl : List ℚ) (bpm duration : ℚ)
    (hb : 0 < bpm) (hd : 0 < duration) :
    (((analyzeSongStructure tl bpm duration).length : ℤ) =
        max 4 ⌊duration / (16 * 60 / bpm)⌋) ∧
    analyzeSongStructure tl bpm duration ≠ [] ∧
    (∀ i (h : i < (analyzeSongStructure tl bpm duration).length),
      ((analyzeSongStructure tl bpm duration).get ⟨i, h⟩).startTime =
        (i : ℚ) * (duration / ((analyzeSongStructure tl bpm duration).length : ℚ)) ∧
      ((analyzeSongStructure tl bpm duration).get ⟨i, h⟩).endTime =
        ((i : ℚ) + 1) * (duration / ((analyzeSongStructure tl bpm duration).length : ℚ)) ∧
      ((analyzeSongStructure tl bpm duration).get ⟨i, h⟩).endTime -
          ((analyzeSongStructure tl bpm duration).get ⟨i, h⟩).startTime =
        duration / ((analyzeSongStructure tl bpm duration).length : ℚ) ∧
      ((analyzeSongStructure tl bpm duration).get ⟨i, h⟩).startTime <
        ((analyzeSongStructure tl bpm duration).get ⟨i, h⟩).endTime) ∧
    (∀ i (h : i + 1 < (analyzeSongStructure tl bpm duration).length),
      ((analyzeSongStructure tl bpm duration).get
          ⟨i, Nat.lt_of_succ_lt h⟩).endTime =
        ((analyzeSongStructure tl bpm duration).get ⟨i + 1, h⟩).startTime) ∧
    (∀ (hne : analyzeSongStructure tl bpm duration ≠ []),
      ((analyzeSongStructure tl bpm duration).head hne).startTime = 0 ∧
      ((analyzeSongStructure tl bpm duration).getLast hne).endTime = duration) := by
  have hlen : (analyzeSongStructure tl bpm duration).length =
      (max 4 (pyTrunc (duration / (16 * (60 / bpm))))).toNat := by
    simp [analyzeSongStructure]
  have hq : (0 : ℚ) < duration / (16 * (60 / bpm)) := by positivity
  have h4 : 4 ≤ (analyzeSongStructure tl bpm duration).length := by
    rw [hlen]; omega
  have hlenpos : (0 : ℚ) < ((analyzeSongStructure tl bpm duration).length : ℚ) := by
    exact_mod_cast lt_of_lt_of_le (by norm_num) h4
  have hwidth : (0 : ℚ) <
      duration / ((analyzeSongStructure tl bpm duration).length : ℚ) :=
    div_pos hd hlenpos
  refine ⟨?_, ?_, ?_, ?_, ?_⟩
  · rw [hlen, pyTrunc_of_nonneg hq.le]
    have heq : duration / (16 * (60 / bpm)) = duration / (16 * 60 / bpm) := by
      rw [mul_div_assoc]
    rw [heq]
    omega
  · exact List.ne_nil_of_length_pos (by omega)
  · intro i h
    obtain ⟨hs, he⟩ := analyzeSongStructure_get tl bpm duration i h
    refine ⟨hs, he, ?_, ?_⟩
    · rw [hs, he]; ring
    · rw [hs, he]
      have : (i : ℚ) < (i : ℚ) + 1 := by linarith
      exact mul_lt_mul_of_pos_right this hwidth
  · intro i h
    obtain ⟨_, he⟩ := analyzeSongStructure_get tl bpm duration i (Nat.lt_of_succ_lt h)
    obtain ⟨hs, _⟩ := analyzeSongStructure_get tl bpm duration (i + 1) h
    rw [he, hs]
    push_cast
    ring
  · intro hne
    have h0 : 0 < (analyzeSongStructure tl bpm duration).length := by omega
    constructor
    · rw [← List.get_mk_zero h0]
      obtain ⟨hs, _⟩ := analyzeSongStructure_get tl bpm duration 0 h0
      rw [hs]; ring
    · rw [List.getLast_eq_get]
      obtain ⟨_, he⟩ := analyzeSongStructure_get tl bpm duration
        ((analyzeSongStructure tl bpm duration).length - 1)
        (by omega)
      rw [he]
      have hcast : (((analyzeSongStructure tl bpm duration).length - 1 : ℕ) : ℚ) + 1 =
          ((analyzeSongStructure tl bpm duration).length : ℚ) := by
        have : 1 ≤ (analyzeSongStructure tl bpm duration).length := by omega
        push_cast [this]
        ring
      rw [hcast, mul_div_cancel₀]
      exact ne_of_gt hlenpos

/-- Witness for C6 at bpm 120, duration 60 (7 sections of width 60/7). -/
theorem c6_witness :
    ((0 : ℚ) < 120 ∧ (0 : ℚ) < 60) ∧
    ((analyzeSongStructure [] 120 60).length : ℤ) =
      max 4 ⌊(60 : ℚ) / (16 * 60 / 120)⌋ ∧
    analyzeSongStructure [] 120 60 ≠ [] ∧
    (∀ (hne : analyzeSongStructure [] 120 60 ≠ []),
      ((analyzeSongStructure [] 120 60).head hne).startTime = 0 ∧
      ((analyzeSongStructure [] 120 60).getLast hne).endTime = 60) := by
  have h := c6_sections_tile_duration [] 120 60 (by norm_num) (by norm_num)
  exact ⟨⟨by norm_num, by norm_num⟩, h.1, h.2.1, h.2.2.2.2⟩

/-- A cache-missing request whose candidate generation succeeds stores
the result (source line 354) and returns it. -/
lemma generateBlueprint_candidate_ok (st : ServiceState) (env : GenEnv)
    (audio : List ℕ) (ct : String) (opts : Option (List ℕ))
    (f : FeaturesDict) (bp : BlueprintR)
    (hmiss : cacheLookup st.cache (generateCacheKey audio opts) env.now = none)
    (hf : env.analyze = .ok f) (hc : env.candidate = .ok bp) :
    generateBlueprint st env audio ct opts =
      (.ok ⟨{ bp with generationOptions := opts }, f⟩,
       { cache := ⟨generateCacheKey audio opts, env.now,
           ⟨{ bp with generationOptions := opts }, f⟩⟩ :: st.cache
         extractCalls := st.extractCalls + 1
         generateCalls := st.generateCalls + 1 }) := by
  simp [generateBlueprint, hmiss, hf, hc]

/-- A live cache entry at the head of the list answers the lookup. -/
lemma cacheLookup_cons_hit (rest : List CacheEntry) (key : List ℕ)
    (t now : ℕ) (v : GenResult) (h : now < t + cacheTTL) :
    cacheLookup (⟨key, t, v⟩ :: rest) key now = some v := by
  simp [cacheLookup, List.find?, h]

/-- After a stored first call, a second call with the same audio bytes
and options — under any declared content type and any downstream
outcomes — hits the cache and leaves the state untouched. -/
lemma generateBlueprint_second_call (st : ServiceState) (env1 env2 : GenEnv)
    (audio : List ℕ) (ct1 ct2 : String) (opts : Option (List ℕ))
    (f : FeaturesDict) (bp : BlueprintR)
    (hmiss : cacheLookup st.cache (generateCacheKey audio opts) env1.now = none)
    (hf : env1.analyze = .ok f) (hc : env1.candidate = .ok bp)
    (httl : env2.now < env1.now + cacheTTL) :
    generateBlueprint (generateBlueprint st env1 audio ct1 opts).2
        env2 audio ct2 opts =
      (.ok ⟨{ bp with generationOptions := opts }, f⟩,
       (generateBlueprint st env1 audio ct1 opts).2) := by
  rw [generateBlueprint_candidate_ok st env1 audio ct1 opts f bp hmiss hf hc]
  simp only [generateBlueprint,
    cacheLookup_cons_hit st.cache (generateCacheKey audio opts) env1.now
      env2.now _ httl]

/-- **C1.** If feature extraction succeeds and the candidate-generation
step fails in any way, `generate_blueprint` still returns a result whose
blueprint is the deterministic procedural fallback, whose track is
non-empty; the fallback itself is a total function of the features (it
cannot fail); and an error propagates to the caller only when feature
extraction itself failed. -/
theorem c1_fallback_on_candidate_failure (st : ServiceState) (env : GenEnv)
    (audio : List ℕ) (ct : String) (opts : Option (List ℕ))
    (f : FeaturesDict) (e : String)
    (hmiss : cacheLookup st.cache (generateCacheKey audio opts) env.now = none)
    (hf : env.analyze = .ok f) (hc : env.candidate = .error e) :
    (generateBlueprint st env audio ct opts).1 =
      .ok ⟨proceduralFallback env.sinExt f, f⟩ ∧
    (proceduralFallback env.sinExt f).track ≠ [] ∧
    (∀ (st' : ServiceState) (env' : GenEnv) (audio' : List ℕ) (ct' : String)
        (opts' : Option (List ℕ)) (err : HTTPError),
      (generateBlueprint st' env' audio' ct' opts').1 = .error err →
      ∃ msg, env'.analyze = .error msg) := by
  refine ⟨?_, proceduralFallback_track_ne_nil env.sinExt f, ?_⟩
  · simp [generateBlueprint, hmiss, hf, hc]
  · intro st' env' audio' ct' opts' err herr
    simp only [generateBlueprint] at herr
    rcases hl : cacheLookup st'.cache (generateCacheKey audio' opts') env'.now with
      _ | r
    · rcases ha : env'.analyze with msg | f'
      · exact ⟨msg, rfl⟩
      · rcases hcand : env'.candidate with e' | bp'
        · rw [hl, ha, hcand] at herr
          simp at herr
        · rw [hl, ha, hcand] at herr
          simp at herr
    · rw [hl] at herr
      simp at herr

/-- Witness for C1: concrete failing candidate generation on a fresh
service. -/
theorem c1_witness :
    (cacheLookup emptyState.cache (generateCacheKey [1, 2] none)
        envCandidateFails.now = none ∧
     envCandidateFails.analyze = .ok sampleFeatures ∧
     envCandidateFails.candidate = .error "API error") ∧
    (generateBlueprint emptyState envCandidateFails [1, 2] "audio/wav" none).1 =
      .ok ⟨proceduralFallback envCandidateFails.sinExt sampleFeatures,
        sampleFeatures⟩ ∧
    (proceduralFallback envCandidateFails.sinExt sampleFeatures).track ≠ [] := by
  have h := c1_fallback_on_candidate_failure emptyState envCandidateFails
    [1, 2] "audio/wav" none sampleFeatures "API error" rfl rfl rfl
  exact ⟨⟨rfl, rfl, rfl⟩, h.1, h.2.1⟩

/-- **C3.** A second call with byte-identical audio, identical content
type and identical options, arriving while the stored entry from the
first call is within its TTL, returns the identical stored result and
leaves the service state — including both stage call counters —
unchanged: neither extraction nor candidate generation runs again. -/
theorem c3_cache_hit_skips_pipeline (st : ServiceState) (env1 env2 : GenEnv)
    (audio : List ℕ) (ct : String) (opts : Option (List ℕ))
    (f : FeaturesDict) (bp : BlueprintR)
    (hmiss : cacheLookup st.cache (generateCacheKey audio opts) env1.now = none)
    (hf : env1.analyze = .ok f) (hc : env1.candidate = .ok bp)
    (httl : env2.now < env1.now + cacheTTL) :
    (generateBlueprint (generateBlueprint st env1 audio ct opts).2
        env2 audio ct opts).1 =
      (generateBlueprint st env1 audio ct opts).1 ∧
    (generateBlueprint (generateBlueprint st env1 audio ct opts).2
        env2 audio ct opts).2 =
      (generateBlueprint st env1 audio ct opts).2 ∧
    ((generateBlueprint (generateBlueprint st env1 audio ct opts).2
        env2 audio ct opts).2).extractCalls =
      ((generateBlueprint st env1 audio ct opts).2).extractCalls ∧
    ((generateBlueprint (generateBlueprint st env1 audio ct opts).2
        env2 audio ct opts).2).generateCalls =
      ((generateBlueprint st env1 audio ct opts).2).generateCalls := by
  have h2 := generateBlueprint_second_call st env1 env2 audio ct ct opts f bp
    hmiss hf hc httl
  have h1 := generateBlueprint_candidate_ok st env1 audio ct opts f bp
    hmiss hf hc
  rw [h2, h1]
  exact ⟨rfl, rfl, rfl, rfl⟩

/-- Witness for C3: a concrete repeat request one second later. -/
theorem c3_witness :
    (cacheLookup emptyState.cache (generateCacheKey [3, 4] (some [9]))
        envOk.now = none ∧
     envOk.analyze = .ok sampleFeatures ∧
     envOk.candidate = .ok sampleBlueprint ∧
     envAnalyzeFails.now < envOk.now + cacheTTL) ∧
    (generateBlueprint (generateBlueprint emptyState envOk [3, 4] "audio/wav"
        (some [9])).2 envAnalyzeFails [3, 4] "audio/wav" (some [9])).1 =
      (generateBlueprint emptyState envOk [3, 4] "audio/wav" (some [9])).1 ∧
    (generateBlueprint (generateBlueprint emptyState envOk [3, 4] "audio/wav"
        (some [9])).2 envAnalyzeFails [3, 4] "audio/wav" (some [9])).2 =
      (generateBlueprint emptyState envOk [3, 4] "audio/wav" (some [9])).2 := by
  have h := c3_cache_hit_skips_pipeline emptyState envOk envAnalyzeFails
    [3, 4] "audio/wav" (some [9]) sampleFeatures sampleBlueprint
    rfl rfl rfl (by norm_num [envOk, envAnalyzeFails, cacheTTL])
  exact ⟨⟨rfl, rfl, rfl, by norm_num [envOk, envAnalyzeFails, cacheTTL]⟩,
    h.1, h.2.1⟩

/-- **C2 counterexample.** Two requests with identical audio bytes and
options but *different* declared content types are assigned the same
cache key: the second request (content type `"audio/mpeg"`, whose own
feature extraction would fail) is served the first request's stored
result (declared as `"audio/wav"`) and the service state is unchanged.
Under the claim their keys would differ, the second request would miss
the cache and propagate its extraction error instead. -/
theorem c2_counterexample :
    envAnalyzeFails.analyze = .error "decode failure" ∧
    (generateBlueprint (generateBlueprint emptyState envOk [7, 7] "audio/wav"
        (some [1])).2 envAnalyzeFails [7, 7] "audio/mpeg" (some [1])).1 =
      (generateBlueprint emptyState envOk [7, 7] "audio/wav" (some [1])).1 ∧
    (generateBlueprint (generateBlueprint emptyState envOk [7, 7] "audio/wav"
        (some [1])).2 envAnalyzeFails [7, 7] "audio/mpeg" (some [1])).2 =
      (generateBlueprint emptyState envOk [7, 7] "audio/wav" (some [1])).2 := by
  have h2 := generateBlueprint_second_call emptyState envOk envAnalyzeFails
    [7, 7] "audio/wav" "audio/mpeg" (some [1]) sampleFeatures sampleBlueprint
    rfl rfl rfl (by norm_num [envOk, envAnalyzeFails, cacheTTL])
  have h1 := generateBlueprint_candidate_ok emptyState envOk [7, 7]
    "audio/wav" (some [1]) sampleFeatures sampleBlueprint rfl rfl rfl
  rw [h2, h1]
  exact ⟨rfl, rfl, rfl⟩

/-- **C2 (amended).** The cache key is a stable digest of the audio
content bytes and the serialized generation options only; the declared
content type is not part of the key.  Hence for every stored first call,
a repeat with the same bytes and options under *any* declared content
type — equal or different — is served the identical stored result
within the TTL window, with the state unchanged. -/
theorem c2_amended_key_ignores_content_type (st : ServiceState)
    (env1 env2 : GenEnv) (audio : List ℕ) (ct1 ct2 : String)
    (opts : Option (List ℕ)) (f : FeaturesDict) (bp : BlueprintR)
    (hmiss : cacheLookup st.cache (generateCacheKey audio opts) env1.now = none)
    (hf : env1.analyze = .ok f) (hc : env1.candidate = .ok bp)
    (httl : env2.now < env1.now + cacheTTL) :
    (generateBlueprint (generateBlueprint st env1 audio ct1 opts).2
        env2 audio ct2 opts).1 =
      (generateBlueprint st env1 audio ct1 opts).1 ∧
    (generateBlueprint (generateBlueprint st env1 audio ct1 opts).2
        env2 audio ct2 opts).2 =
      (generateBlueprint st env1 audio ct1 opts).2 := by
  have h2 := generateBlueprint_second_call st env1 env2 audio ct1 ct2 opts f bp
    hmiss hf hc httl
  have h1 := generateBlueprint_candidate_ok st env1 audio ct1 opts f bp
    hmiss hf hc
  rw [h2, h1]
  exact ⟨rfl, rfl⟩

/-- Witness for the amended C2 at concrete distinct content types. -/
theorem c2_amended_witness :
    (cacheLookup emptyState.cache (generateCacheKey [5] none)
        envOk.now = none ∧
     envOk.analyze = .ok sampleFeatures ∧
     envOk.candidate = .ok sampleBlueprint ∧
     envAnalyzeFails.now < envOk.now + cacheTTL) ∧
    (generateBlueprint (generateBlueprint emptyState envOk [5] "audio/flac"
        none).2 envAnalyzeFails [5] "audio/ogg" none).1 =
      (generateBlueprint emptyState envOk [5] "audio/flac" none).1 := by
  have h := c2_amended_key_ignores_content_type emptyState envOk envAnalyzeFails
    [5] "audio/flac" "audio/ogg" none sampleFeatures sampleBlueprint
    rfl rfl rfl (by norm_num [envOk, envAnalyzeFails, cacheTTL])
  exact ⟨⟨rfl, rfl, rfl, by norm_num [envOk, envAnalyzeFails, cacheTTL]⟩, h.1⟩

lemma analysisFrames_length (env : LibrosaEnv) (c0 : ℚ) :
    (analysisFrames env c0).length = env.S.length := by
  simp [analysisFrames]

lemma analysisFrames_map_energy (env : LibrosaEnv) (c0 : ℚ)
    (hrms : env.rms.length = env.S.length) :
    (analysisFrames env c0).map (·.energy) = env.rms := by
  unfold analysisFrames
  simp only [List.map_map]
  show (List.range env.S.length).map (fun i => env.rms.getD i 0) = env.rms
  rw [← hrms]
  exact map_getD_range env.rms 0

lemma analysisResult_energy (env : LibrosaEnv) (tempo c0 : ℚ)
    (hrms : env.rms.length = env.S.length) (hS : env.S ≠ []) :
    (analysisResult env tempo c0).energy = clip01 (mean env.rms * 5) := by
  have hne : (analysisFrames env c0).isEmpty = false := by
    rw [List.isEmpty_eq_false]
    intro hnil
    have := analysisFrames_length env c0
    rw [hnil] at this
    exact hS (List.length_eq_zero.mp this.symm)
  show clip01 ((if (analysisFrames env c0).isEmpty then 0
      else mean ((analysisFrames env c0).map (·.energy))) * 5) = _
  rw [hne]
  simp only [Bool.false_eq_true, if_false]
  rw [analysisFrames_map_energy env c0 hrms]

lemma analysisResult_bpm (env : LibrosaEnv) (tempo c0 : ℚ) :
    (analysisResult env tempo c0).bpm = if tempo ≠ 0 then tempo else 120 := rfl

lemma analysisResult_duration (env : LibrosaEnv) (tempo c0 : ℚ) :
    (analysisResult env tempo c0).duration =
      if env.origDuration > 120 then (120 : ℚ) else env.origDuration := rfl

/-- **C4.** For every extraction whose decode succeeded (non-degenerate
spectrogram, beat tracking returning a non-negative tempo, librosa
feature arrays of matching frame count), extraction succeeds and the
resulting features satisfy: energy equals the mean per-frame RMS times
the fixed gain 5 clipped to [0,1] (hence 0 ≤ energy ≤ 1), bpm > 0, and
the reported duration is min(original duration, 120 s). -/
theorem c4_extraction_invariants (env : LibrosaEnv) (t : ℚ)
    (hbeat : env.beat = .ok t) (ht : 0 ≤ t) (hS : env.S ≠ [])
    (hcen : env.centroid.length = env.S.length)
    (hrms : env.rms.length = env.S.length) :
    ∃ feats, analyzeAudioSync env = .ok feats ∧
      feats.energy = clip01 (mean env.rms * 5) ∧
      0 ≤ feats.energy ∧ feats.energy ≤ 1 ∧
      0 < feats.bpm ∧
      feats.duration = min env.origDuration 120 := by
  obtain ⟨c0, cs, hc⟩ : ∃ c0 cs, env.centroid = c0 :: cs := by
    cases hx : env.centroid with
    | nil =>
      rw [hx] at hcen
      exact absurd (List.length_eq_zero.mp hcen.symm) hS
    | cons c0 cs => exact ⟨c0, cs, rfl⟩
  have hen := analysisResult_energy env t c0 hrms hS
  refine ⟨analysisResult env t c0, ?_, hen, ?_, ?_, ?_, ?_⟩
  · simp [analyzeAudioSync, hbeat, hc]
  · rw [hen]; exact clip01_nonneg _
  · rw [hen]; exact clip01_le_one _
  · rw [analysisResult_bpm]
    by_cases h : t = 0
    · simp [h]
    · rw [if_pos h]
      exact lt_of_le_of_ne ht (Ne.symm h)
  · rw [analysisResult_duration]
    by_cases h : env.origDuration > 120
    · rw [if_pos h, min_eq_right h.le]
    · rw [if_neg h, min_eq_left (not_lt.mp h)]

/-- Witness for C4 at the two-frame concrete environment. -/
theorem c4_witness :
    (envTwoFrames.beat = .ok 120 ∧ (0 : ℚ) ≤ 120 ∧ envTwoFrames.S ≠ [] ∧
     envTwoFrames.centroid.length = envTwoFrames.S.length ∧
     envTwoFrames.rms.length = envTwoFrames.S.length) ∧
    (∃ feats, analyzeAudioSync envTwoFrames = .ok feats ∧
      feats.energy = clip01 (mean envTwoFrames.rms * 5) ∧
      0 ≤ feats.energy ∧ feats.energy ≤ 1 ∧
      0 < feats.bpm ∧
      feats.duration = min envTwoFrames.origDuration 120) := by
  refine ⟨⟨rfl, by norm_num, by simp [envTwoFrames], rfl, rfl⟩, ?_⟩
  exact c4_extraction_invariants envTwoFrames 120 rfl (by norm_num)
    (by simp [envTwoFrames]) rfl rfl

/-- **C5 (divergence witness).** On a spectrogram with zero frames the
code does *not* return normally with empty frame analyses and zero
aggregates: `spectral_centroid_frames[0]` (the `prepend` argument of the
spectral-flux `np.diff` at line 91) raises `IndexError`, which the
generic handler converts into an HTTP 500 error. -/
theorem c5_zero_frames_raises :
    analyzeAudioSync envZeroFrames =
      .error ⟨500, "An unexpected error occurred during audio analysis."⟩ :=
  rfl

/-- **C8 counterexample.** When the beat-tracking call *raises*,
extraction does not substitute the 120 BPM default: the exception
escapes to the top-level handler and the whole analysis aborts with an
HTTP error, contradicting the claim that the rest of feature extraction
completes normally. -/
theorem c8_counterexample :
    envBeatRaises.beat = .error (.otherError "beat tracking failed") ∧
    analyzeAudioSync envBeatRaises =
      .error ⟨500, "An unexpected error occurred during audio analysis."⟩ :=
  ⟨rfl, rfl⟩

/-- **C8 (amended).** The 120.0 BPM default is substituted when the
beat-tracking call *returns* a falsy (zero) tempo — in which case the
rest of extraction completes normally — whereas a beat-tracking call
that *raises* propagates as an HTTP 400 (librosa error) or 500 (other
exception) and aborts the extraction. -/
theorem c8_amended_default_on_zero_tempo (env : LibrosaEnv) (c0 : ℚ)
    (cs : List ℚ) (hbeat : env.beat = .ok 0) (hcen : env.centroid = c0 :: cs) :
    (∃ feats, analyzeAudioSync env = .ok feats ∧ feats.bpm = 120) ∧
    (∀ (envA : LibrosaEnv) (m : String),
      envA.beat = .error (.otherError m) →
      analyzeAudioSync envA =
        .error ⟨500, "An unexpected error occurred during audio analysis."⟩) ∧
    (∀ (envA : LibrosaEnv) (m : String),
      envA.beat = .error (.librosaError m) →
      analyzeAudioSync envA = .error ⟨400, "Audio processing failed: " ++ m⟩) := by
  refine ⟨⟨analysisResult env 0 c0, ?_, ?_⟩, ?_, ?_⟩
  · simp [analyzeAudioSync, hbeat, hcen]
  · rw [analysisResult_bpm]
    simp
  · intro envA m h
    simp [analyzeAudioSync, h]
  · intro envA m h
    simp [analyzeAudioSync, h]

/-- Witness for the amended C8 at a concrete zero-tempo environment. -/
theorem c8_witness :
    (envZeroTempo.beat = .ok 0 ∧
     envZeroTempo.centroid = 1000 :: [1200]) ∧
    (∃ feats, analyzeAudioSync envZeroTempo = .ok feats ∧ feats.bpm = 120) := by
  have h := c8_amended_default_on_zero_tempo envZeroTempo 1000 [1200] rfl rfl
  exact ⟨⟨rfl, rfl⟩, h.1⟩

lemma eps10_le_maxMagnitude (S : List (List ℚ)) : eps10 ≤ maxMagnitude S := by
  show eps10 ≤ if (S.foldr (· ++ ·) []).isEmpty then eps10
    else max (listMax (S.foldr (· ++ ·) [])) eps10
  split
  · exact le_refl _
  · exact le_max_right _ _

lemma bandEnergyPerFrame_silent (S : List (List ℚ)) (bins : List ℕ)
    (h : ∀ col ∈ S, ∀ v ∈ col, v = 0) :
    ∀ x ∈ bandEnergyPerFrame S bins, x = 0 := by
  unfold bandEnergyPerFrame
  split
  · intro x hx
    rcases List.mem_map.mp hx with ⟨col, _, rfl⟩
    rfl
  · intro x hx
    rcases List.mem_map.mp hx with ⟨col, hcol, rfl⟩
    apply mean_eq_zero
    intro y hy
    rcases List.mem_map.mp hy with ⟨i, _, rfl⟩
    exact getD_eq_zero (h col hcol) i

lemma analysisFrames_silent (env : LibrosaEnv) (c0 : ℚ)
    (h : ∀ col ∈ env.S, ∀ v ∈ col, v = 0) :
    ∀ fr ∈ analysisFrames env c0, fr.bass = 0 ∧ fr.mid = 0 ∧ fr.high = 0 := by
  intro fr hfr
  unfold analysisFrames at hfr
  simp only [List.mem_map, List.mem_range] at hfr
  obtain ⟨i, _, rfl⟩ := hfr
  have hz : ∀ bins : List ℕ, ∀ x ∈ ((bandEnergyPerFrame env.S bins).map
      fun v => clip01 (v / maxMagnitude env.S)), x = 0 := by
    intro bins x hx
    rcases List.mem_map.mp hx with ⟨v, hv, rfl⟩
    rw [bandEnergyPerFrame_silent env.S bins h v hv]
    norm_num [clip01]
  exact ⟨getD_eq_zero (hz (bassBins env.freqs)) i,
    getD_eq_zero (hz (midBins env.freqs)) i,
    getD_eq_zero (hz (highBins env.freqs)) i⟩

/-- **C9.** For silent (all-zero) decoded audio, the per-frame
normalized band energies bass, mid and high are computed without
division by zero — the normalizing denominator `maxS` is guarded to be
at least `1e-10`, hence positive — and every frame's bass, mid and high
equal 0. -/
theorem c9_silent_band_energies_zero (env : LibrosaEnv) (t c0 : ℚ)
    (cs : List ℚ) (hbeat : env.beat = .ok t) (hcen : env.centroid = c0 :: cs)
    (hsilent : ∀ col ∈ env.S, ∀ v ∈ col, v = 0) :
    (∃ feats, analyzeAudioSync env = .ok feats ∧
      ∀ fr ∈ feats.frameAnalyses, fr.bass = 0 ∧ fr.mid = 0 ∧ fr.high = 0) ∧
    eps10 ≤ maxMagnitude env.S ∧ 0 < maxMagnitude env.S := by
  have hm := eps10_le_maxMagnitude env.S
  refine ⟨⟨analysisResult env t c0, ?_, ?_⟩, hm, ?_⟩
  · simp [analyzeAudioSync, hbeat, hcen]
  · exact analysisFrames_silent env c0 hsilent
  · exact lt_of_lt_of_le (by norm_num [eps10]) hm

/-- Witness for C9 at a concrete one-frame silent environment. -/
theorem c9_witness :
    (envSilent.beat = .ok 0 ∧ envSilent.centroid = 0 :: [] ∧
     (∀ col ∈ envSilent.S, ∀ v ∈ col, v = 0)) ∧
    ((∃ feats, analyzeAudioSync envSilent = .ok feats ∧
      ∀ fr ∈ feats.frameAnalyses, fr.bass = 0 ∧ fr.mid = 0 ∧ fr.high = 0) ∧
     eps10 ≤ maxMagnitude envSilent.S ∧ 0 < maxMagnitude envSilent.S) := by
  have hs : ∀ col ∈ envSilent.S, ∀ v ∈ col, v = 0 := by decide
  exact ⟨⟨rfl, rfl, hs⟩,
    c9_silent_band_energies_zero envSilent 0 0 [] rfl rfl hs⟩

end AudioRailRider
